import Mathlib

/-!
Shallow embedding of the Auto-Trading repository's labeling engine and
trade-simulation / performance-statistics engine
(`autotrading/ml_backtest.py`, `autotrading/risk_kit.py`).

Prices and returns are modelled as exact rationals (`ℚ`); the pandas/numpy
float columns are modelled as `List ℚ` where the pipeline has eliminated
NaN (via `fillna`) and as NaN-aware values (`RVal`, `Option ℚ`) where NaN
can reach the observed result.
-/

namespace AutoTrading

/-! ## numpy/pandas list primitives -/

/-- Running maximum (`numpy.maximum.accumulate` / `Series.cummax`),
tail worker carrying the maximum `m` seen so far. -/
def cummaxGo (m : ℚ) : List ℚ → List ℚ
  | [] => []
  | x :: xs => max m x :: cummaxGo (max m x) xs

/-- Running maximum of a list (`Series.cummax`). -/
def cummaxQ : List ℚ → List ℚ
  | [] => []
  | x :: xs => x :: cummaxGo x xs

/-- `cash * (return_series + 1).cumprod()` , tail worker carrying the
wealth accumulated so far. -/
def wealthGo (c : ℚ) : List ℚ → List ℚ
  | [] => []
  | r :: rs => c * (1 + r) :: wealthGo (c * (1 + r)) rs

/-- Wealth index `cash*(return_series+1).cumprod()` from
`risk_kit.drawdown` / `ml_backtest.simple_drawdown`. -/
def wealthIndex (cash : ℚ) (rs : List ℚ) : List ℚ := wealthGo cash rs

/-- `series.shift(1).fillna(0)`: prepend a 0, drop the last element. -/
def shiftFillZero (l : List ℚ) : List ℚ :=
  if l.isEmpty then [] else 0 :: l.dropLast

/-! ## ml_backtest: position bookkeeping (lines 402-432) -/

/-- Line 403: `lambda x: 1.0 if x == 1.0 else 0.0` applied to the raw
prediction column; `none` models a NaN entry. -/
def coerceSignal (x : Option ℚ) : ℚ := if x = some 1 then 1 else 0

/-- Lines 402-403: the coerced `binary_signal` column. -/
def binarySignal (pred : List (Option ℚ)) : List ℚ := pred.map coerceSignal

/-- Line 404: `status = binary_signal.shift(1).fillna(0)`. -/
def statusList (pred : List (Option ℚ)) : List ℚ :=
  shiftFillZero (binarySignal pred)

/-- `status[t]` read positionally (0 outside the column, never used there). -/
def statAt (pred : List (Option ℚ)) (t : ℕ) : ℚ := (statusList pred).getD t 0

/-- Line 405: indices where `status == 1 & status.shift(1) == 0`
(the shifted NaN at row 0 compares unequal to 0, so `1 ≤ t`). -/
def buyIdx (opens : List ℚ) (pred : List (Option ℚ)) : List ℕ :=
  (List.range opens.length).filter
    (fun t => 1 ≤ t ∧ statAt pred t = 1 ∧ statAt pred (t - 1) = 0)

/-- Line 406: indices where `status == 0 & status.shift(1) == 1`. -/
def sellIdx (opens : List ℚ) (pred : List (Option ℚ)) : List ℕ :=
  (List.range opens.length).filter
    (fun t => 1 ≤ t ∧ statAt pred t = 0 ∧ statAt pred (t - 1) = 1)

/-- Line 420: `sell_dates`, the sell indices whose open price is nonzero
(the `sell_price != 0` filter after `fillna(0.0)`). -/
def sellDates (opens : List ℚ) (pred : List (Option ℚ)) : List ℕ :=
  (sellIdx opens pred).filter (fun t => opens.getD t 0 ≠ 0)

/-- Line 410: `buy_cost = np.array(data.buy_price[data.buy_price != 0])`. -/
def buyCost (opens : List ℚ) (pred : List (Option ℚ)) : List ℚ :=
  ((buyIdx opens pred).map (fun t => opens.getD t 0)).filter (fun x => x ≠ 0)

/-- Line 411: `sell_price = np.array(data.sell_price[data.sell_price != 0])`. -/
def sellPrice (opens : List ℚ) (pred : List (Option ℚ)) : List ℚ :=
  ((sellIdx opens pred).map (fun t => opens.getD t 0)).filter (fun x => x ≠ 0)

/-- Lines 412-413: drop the dangling last buy when there is one more buy
than sells. -/
def buyCostMatched (opens : List ℚ) (pred : List (Option ℚ)) : List ℚ :=
  if (sellPrice opens pred).length < (buyCost opens pred).length then
    (buyCost opens pred).dropLast
  else buyCost opens pred

/-- Line 414: `trade_return = sell_price / buy_cost - 1`. -/
def tradeReturn (opens : List ℚ) (pred : List (Option ℚ)) : List ℚ :=
  List.zipWith (fun s b => s / b - 1) (sellPrice opens pred)
    (buyCostMatched opens pred)

/-- Line 415: `net_trade_return = trade_return - fee`. -/
def netTradeReturn (opens : List ℚ) (pred : List (Option ℚ)) (fee : ℚ) :
    List ℚ :=
  (tradeReturn opens pred).map (fun r => r - fee)

/-- Line 491: `trade_count = len(sell_dates)`. -/
def tradeCount (opens : List ℚ) (pred : List (Option ℚ)) : ℕ :=
  (sellDates opens pred).length

/-- Lines 425-429: per-bar strategy net return after `fillna(0.0)`:
`status.shift(1) * (Open/Open.shift(1) - 1)`, minus the fee on sell dates.
Row 0 is NaN before the `fillna` and hence 0 here. -/
def strategyNetReturn (opens : List ℚ) (pred : List (Option ℚ)) (fee : ℚ) :
    List ℚ :=
  (List.range opens.length).map (fun t =>
    (if t = 0 then 0
     else statAt pred (t - 1) * (opens.getD t 0 / opens.getD (t - 1) 0 - 1)) -
    if t ∈ sellDates opens pred then fee else 0)

/-- Line 432: `strategy_net_equity = (strategy_net_return + 1).cumprod() * cash`. -/
def strategyNetEquity (opens : List ℚ) (pred : List (Option ℚ))
    (fee cash : ℚ) : List ℚ :=
  wealthIndex cash (strategyNetReturn opens pred fee)

/-! ## triple_barrier (ml_backtest.py lines 72-135) -/

/-- Lines 99-100, `end_price`: over a window `s`, the first price whose
ratio to `s[0]` exceeds `ub` or falls below `lb` (else the last price of
the window), divided by `s[0]`. -/
def endPrice (ub lb : ℚ) (s : List ℚ) : ℚ :=
  match s with
  | [] => 0
  | s0 :: _ =>
    match s.find? (fun x => ub < x / s0 ∨ x / s0 < lb) with
    | some x => x / s0
    | none => (s.getLast?.getD 0) / s0

/-- Line 108: the rolled/shifted `p` column; `p[t]` is `end_price` of the
window `close[t .. t+max_period-1]`, NaN (`none`) when no full window
remains. -/
def tbProfit (closes : List ℚ) (ub lb : ℚ) (maxPeriod : ℕ) (t : ℕ) :
    Option ℚ :=
  if t + maxPeriod ≤ closes.length then
    some (endPrice ub lb ((closes.drop t).take maxPeriod))
  else none

/-- Lines 113-115: `triple_barrier_signal`, 1 where `p > ub`, -1 where
`p < lb`, else 0 (NaN rows compare false and stay 0). -/
def tbSignal (closes : List ℚ) (ub lb : ℚ) (maxPeriod t : ℕ) : ℚ :=
  match tbProfit closes ub lb maxPeriod t with
  | some v => if ub < v then 1 else if v < lb then -1 else 0
  | none => 0

/-- Line 122: `data.Close.pct_change(periods=max_period).fillna(0)`, the
trailing `max_period`-bar percentage change, 0 where undefined. -/
def tbPastReturn (closes : List ℚ) (maxPeriod t : ℕ) : ℚ :=
  if maxPeriod ≤ t ∧ t < closes.length then
    closes.getD t 0 / closes.getD (t - maxPeriod) 0 - 1
  else 0

/-- Line 123: `sign = lambda x: math.copysign(1, x)`; on rationals
(no negative zero, no NaN) this is 1 for `x ≥ 0` and -1 for `x < 0`. -/
def signQ (x : ℚ) : ℚ := if x < 0 then -1 else 1

/-- Line 133 (and 346): the two-class collapse `1.0 if x == 1.0 else 0.0`. -/
def collapseQ (x : ℚ) : ℚ := if x = 1 then 1 else 0

/-- Lines 125-133: the `binary_signal` column of `triple_barrier` with
`two_class=True`: rows whose signal is 0 take `sign` of the trailing
`max_period`-bar return, then everything is collapsed to {0,1}. -/
def tripleBarrierBinary (closes : List ℚ) (ub lb : ℚ) (maxPeriod : ℕ) :
    List ℚ :=
  (List.range closes.length).map (fun t =>
    collapseQ
      (if tbSignal closes ub lb maxPeriod t = 0 then
        signQ (tbPastReturn closes maxPeriod t)
      else tbSignal closes ub lb maxPeriod t))

/-! ## fixed_time_horizon (ml_backtest.py lines 228-284), standardized=False -/

/-- Line 261: `close.pct_change(periods=look_forward).shift(-look_forward)`:
the forward return `close[t+lf]/close[t] - 1`, NaN (`none`) for the last
`look_forward` rows. -/
def forwardReturn (closes : List ℚ) (lookForward t : ℕ) : Option ℚ :=
  if t + lookForward < closes.length then
    some (closes.getD (t + lookForward) 0 / closes.getD t 0 - 1)
  else none

/-- Lines 280-284 (`standardized=False` path): `np.select` over the three
conditions in order, with choices `[1, NaN, -1]` and default NaN; `none`
models the NaN label. -/
def fixedTimeHorizon (closes : List ℚ) (threshold : ℚ) (lookForward : ℕ) :
    List (Option ℚ) :=
  (List.range closes.length).map (fun t =>
    match forwardReturn closes lookForward t with
    | some v =>
      if threshold < v then some 1
      else if v ≤ threshold ∧ -threshold ≤ v then none
      else if v < -threshold then some (-1)
      else none
    | none => none)

/-! ## generate_label "PDM" branch (ml_backtest.py lines 366-370) -/

/-- Line 367: `np.where(close.shift(-delay) > close, 1.0, 0.0)`.
The shifted NaN of the last `delay` rows compares false, so those rows
get 0.0 (the subsequent `ffill` sees no NaN and changes nothing). -/
def pdmLabel (closes : List ℚ) (delay : ℕ) : List ℚ :=
  (List.range closes.length).map (fun t =>
    if t + delay < closes.length ∧ closes.getD t 0 < closes.getD (t + delay) 0
    then 1 else 0)

/-- Modelled from the spec (§4.1 Prediction-Delay), for comparison with
the source's `pdmLabel`: the last `delay` bars are forward-filled from
the last determinable bar's label instead of getting 0. -/
def pdmLabelSpec (closes : List ℚ) (delay : ℕ) : List ℚ :=
  (List.range closes.length).map (fun t =>
    let s := min t (closes.length - 1 - delay)
    if closes.getD s 0 < closes.getD (s + delay) 0 then 1 else 0)

/-! ## risk_kit.drawdown (lines 124-141) = ml_backtest.simple_drawdown
(lines 434-451); the two function bodies are identical. -/

/-- `previous_peak = wealth_index.cummax()`. -/
def previousPeak (cash : ℚ) (rs : List ℚ) : List ℚ :=
  cummaxQ (wealthIndex cash rs)

/-- `drawdowns = (wealth_index - previous_peak) / previous_peak`, in
plain rational arithmetic. Faithful to the float code only where the
running peak is nonzero: at a zero peak the source's float division is
`0/0 = NaN`, which `ℚ` cannot express — `drawdownsF` below models that
case faithfully. -/
def drawdowns (cash : ℚ) (rs : List ℚ) : List ℚ :=
  List.zipWith (fun w p => (w - p) / p) (wealthIndex cash rs)
    (previousPeak cash rs)

/-! ## NaN-aware float values, for the statistics block (lines 477-505)
where numpy NaN/inf can reach the reported result. -/

/-- A numpy float as reachable by the statistics block: a (finite exact)
rational, positive or negative infinity, or NaN. -/
inductive RVal
  | nan
  | inf
  | ninf
  | num (q : ℚ)
deriving DecidableEq

namespace RVal

/-- numpy/pandas division of two finite floats: `0/0 = NaN`,
`x/0 = ±inf` for `x ≠ 0`, ordinary division otherwise. -/
def divQ (a b : ℚ) : RVal :=
  if b = 0 then
    if a = 0 then nan else if 0 < a then inf else ninf
  else num (a / b)

/-- IEEE subtraction. -/
def sub : RVal → RVal → RVal
  | nan, _ => nan
  | _, nan => nan
  | inf, inf => nan
  | inf, _ => inf
  | ninf, ninf => nan
  | ninf, _ => ninf
  | num _, inf => ninf
  | num _, ninf => inf
  | num a, num b => num (a - b)

/-- IEEE multiplication (`inf * 0 = NaN`). -/
def mul : RVal → RVal → RVal
  | nan, _ => nan
  | _, nan => nan
  | inf, inf => inf
  | inf, ninf => ninf
  | ninf, inf => ninf
  | ninf, ninf => inf
  | inf, num b => if b = 0 then nan else if 0 < b then inf else ninf
  | num a, inf => if a = 0 then nan else if 0 < a then inf else ninf
  | ninf, num b => if b = 0 then nan else if 0 < b then ninf else inf
  | num a, ninf => if a = 0 then nan else if 0 < a then ninf else inf
  | num a, num b => num (a * b)

/-- IEEE division including non-finite operands (`x / NaN = NaN`,
`finite / ±inf = 0`, `±inf / ±inf = NaN`). -/
def div : RVal → RVal → RVal
  | nan, _ => nan
  | _, nan => nan
  | inf, inf => nan
  | inf, ninf => nan
  | ninf, inf => nan
  | ninf, ninf => nan
  | inf, num b => if 0 ≤ b then inf else ninf
  | ninf, num b => if 0 ≤ b then ninf else inf
  | num _, inf => num 0
  | num _, ninf => num 0
  | num a, num b => divQ a b

/-- Binary maximum ignoring NaN (the combining step of a pandas
`Series.max()`, whose default is `skipna=True`). -/
def rmax : RVal → RVal → RVal
  | nan, y => y
  | x, nan => x
  | inf, _ => inf
  | _, inf => inf
  | ninf, y => y
  | x, ninf => x
  | num a, num b => num (max a b)

/-- `Series.max()` with `skipna=True`: NaN only when no non-NaN entry
exists. -/
def maxSkipNA (l : List RVal) : RVal := l.foldl rmax nan

/-- `np.nan_to_num`: NaN becomes 0, ±inf becomes ±(2^1024 - 2^971)
(the largest finite double, 1.7976931348623157e308). -/
def nanToNum : RVal → ℚ
  | nan => 0
  | inf => 2 ^ 1024 - 2 ^ 971
  | ninf => -(2 ^ 1024 - 2 ^ 971)
  | num q => q

end RVal

/-- `drawdowns` with numpy float division semantics (`RVal.divQ`:
`0/0 = NaN`, `x/0 = ±inf`), faithful also where the running peak is 0
(reachable with a -100% return or zero starting cash). -/
def drawdownsF (cash : ℚ) (rs : List ℚ) : List RVal :=
  List.zipWith (fun w p => RVal.divQ (w - p) p) (wealthIndex cash rs)
    (previousPeak cash rs)

/-! ## ml_backtest statistics block (lines 477-505) -/

/-- Line 496: `dd = 1 - strategy_net_return /
np.maximum.accumulate(strategy_net_return)` — note: computed from the
per-bar RETURN series, not from an equity/wealth series. Entries where
the running maximum is 0 are NaN (0/0) or ±inf. -/
def ddReturnSeries (r : List ℚ) : List RVal :=
  List.zipWith (fun x c => RVal.sub (RVal.num 1) (RVal.divQ x c)) r
    (cummaxQ r)

/-- Line 499: `max_dd = -np.nan_to_num(dd.max()) * 100`. -/
def maxDrawdownPct (r : List ℚ) : ℚ :=
  -(RVal.nanToNum (RVal.maxSkipNA (ddReturnSeries r))) * 100

/-- Lines 488-489: `annualized_return = ((net_return_per_day+1)**252-1)*100`
with `net_return_per_day = (strategy_net_return+1).prod()**(1/n) - 1`.
The float n-th root `x ** (1/n)` is modelled by the parameter `root`
(the claims only need `root 1 n = 1`). -/
def annualizedReturn (root : ℚ → ℕ → ℚ) (opens : List ℚ)
    (pred : List (Option ℚ)) (fee : ℚ) : ℚ :=
  ((root (((strategyNetReturn opens pred fee).map (fun r => r + 1)).prod)
        opens.length - 1 + 1) ^ 252 - 1) * 100

/-- Line 490: `annualized_volatility = net_trade_return.std()*np.sqrt(252)`.
The numpy standard deviation is modelled by the parameter `std` (NaN on
an empty array) and `np.sqrt(252)` by the parameter `sqrt252`. -/
def annualizedVolatility (std : List ℚ → RVal) (sqrt252 : RVal)
    (opens : List ℚ) (pred : List (Option ℚ)) (fee : ℚ) : RVal :=
  RVal.mul (std (netTradeReturn opens pred fee)) sqrt252

/-- Line 503: `(annualized_return - 0.01) / annualized_volatility`. -/
def annualizedSharpe (std : List ℚ → RVal) (root : ℚ → ℕ → ℚ)
    (sqrt252 : RVal) (opens : List ℚ) (pred : List (Option ℚ)) (fee : ℚ) :
    RVal :=
  RVal.div
    (RVal.num (annualizedReturn root opens pred fee - 1 / 100))
    (annualizedVolatility std sqrt252 opens pred fee)

/-- Line 504: `annualized_return / ((-max_dd / 100) or np.nan)`; Python's
`or` replaces a zero (falsy) divisor by NaN. -/
def calmarRatio (root : ℚ → ℕ → ℚ) (opens : List ℚ)
    (pred : List (Option ℚ)) (fee : ℚ) : RVal :=
  RVal.div (RVal.num (annualizedReturn root opens pred fee))
    (if -maxDrawdownPct (strategyNetReturn opens pred fee) / 100 = 0 then
      RVal.nan
    else RVal.num (-maxDrawdownPct (strategyNetReturn opens pred fee) / 100))

/-! ## The caller's DataFrame and in-place column assignments (for the
frame-effect claim). -/

/-- The caller's price table: OHLC columns plus whatever derived columns
have been added to it by in-place assignment; `none` models a NaN cell. -/
structure Frame where
  Open : List ℚ
  High : List ℚ
  Low : List ℚ
  Close : List ℚ
  extra : List (String × List (Option ℚ))
deriving DecidableEq

/-- `data[name] = col`: pandas column assignment on the caller's frame,
replacing an existing derived column of that name or appending a new
one. -/
def setCol (f : Frame) (name : String) (col : List (Option ℚ)) : Frame :=
  if (f.extra.map Prod.fst).contains name then
    { f with extra :=
        f.extra.map (fun p => if p.1 = name then (name, col) else p) }
  else { f with extra := f.extra ++ [(name, col)] }

/-- Lines 402-406: the in-place column assignments `ml_backtest` performs
on the caller's frame before `data` is rebound at line 407 (raw
prediction, then the coerced prediction, status, buy_price, sell_price;
the price columns at non-event rows are NaN there, not yet 0-filled). -/
def mlBacktestEffect (f : Frame) (pred : List (Option ℚ)) : Frame :=
  let f1 := setCol f "binary_signal" pred
  let f2 := setCol f1 "binary_signal" ((binarySignal pred).map some)
  let f3 := setCol f2 "status" ((statusList pred).map some)
  let f4 := setCol f3 "buy_price"
    ((List.range f.Open.length).map (fun t =>
      if t ∈ buyIdx f.Open pred then some (f.Open.getD t 0) else none))
  setCol f4 "sell_price"
    ((List.range f.Open.length).map (fun t =>
      if t ∈ sellIdx f.Open pred then some (f.Open.getD t 0) else none))

/-- Lines 367-368: the PDM branch of `generate_label` assigns the trend
column into the caller's frame (`data['trend'] = np.where(...)`) before
`data = data.ffill()` rebinds. -/
def pdmEffect (f : Frame) (delay : ℕ) : Frame :=
  setCol f "trend" ((pdmLabel f.Close delay).map some)

/-- The record of per-bar and per-trade outputs of the trade simulation,
for stating that it is a function of the coerced prediction only. -/
structure SimResult where
  status : List ℚ
  buys : List ℕ
  sells : List ℕ
  trades : ℕ
  tradeRets : List ℚ
  netEquity : List ℚ
deriving DecidableEq

/-- The trade simulation of `ml_backtest` (lines 402-432) bundled into
one record. -/
def mlSimulate (opens : List ℚ) (pred : List (Option ℚ)) (fee cash : ℚ) :
    SimResult :=
  ⟨statusList pred, buyIdx opens pred, sellIdx opens pred,
   tradeCount opens pred, tradeReturn opens pred,
   strategyNetEquity opens pred fee cash⟩

end AutoTrading

namespace AutoTrading

/-- Reading a `map` over `range` positionally. -/
theorem rangeMapGet {α : Type} (f : ℕ → α) (n t : ℕ) (h : t < n) :
    ((List.range n).map f)[t]? = some (f t) := by
  rw [List.getElem?_map, List.getElem?_range h, Option.map_some']

/--
**C1.** For the 5-bar price series with opens `[100,102,101,105,107]`,
prediction signal `[1,1,0,0,0]` and `fee = 0`, the trade simulation of
`ml_backtest` produces exactly one completed trade, with entry price 102
(the open of bar 1), exit price 105 (the open of bar 3), and gross trade
return `105/102 - 1 = 1/34` (≈ 0.0294).
-/
theorem C1_five_bar_scenario :
    tradeCount [100, 102, 101, 105, 107]
      [some 1, some 1, some 0, some 0, some 0] = 1 ∧
    buyCost [100, 102, 101, 105, 107]
      [some 1, some 1, some 0, some 0, some 0] = [102] ∧
    sellPrice [100, 102, 101, 105, 107]
      [some 1, some 1, some 0, some 0, some 0] = [105] ∧
    tradeReturn [100, 102, 101, 105, 107]
      [some 1, some 1, some 0, some 0, some 0] = [105 / 102 - 1] ∧
    tradeReturn [100, 102, 101, 105, 107]
      [some 1, some 1, some 0, some 0, some 0] = [1 / 34] := by
  refine ⟨by decide, by decide, by decide, by rfl, ?_⟩
  rw [show tradeReturn [100, 102, 101, 105, 107]
      [some 1, some 1, some 0, some 0, some 0] = [(105 : ℚ) / 102 - 1] from rfl]
  norm_num

/--
**C2 counterexample.** On closes `[10,10,5,5,20]` with `ub = 5`,
`lb = 1/5`, `maxPeriod = 2`, bar 2 is a vertical exit (signed label 0),
its `maxPeriod`-bar forward return is `20/5 - 1 = 3 > 0`, so the claim
predicts binary label `collapseQ (signQ 3) = 1`; the code outputs 0,
because line 122 uses `pct_change(max_period)` — the trailing (backward)
return `5/10 - 1 < 0` — not the forward return.
-/
theorem C2_counterexample :
    tbSignal [10, 10, 5, 5, 20] 5 (1 / 5) 2 2 = 0 ∧
    collapseQ (signQ ((20 : ℚ) / 5 - 1)) = 1 ∧
    (tripleBarrierBinary [10, 10, 5, 5, 20] 5 (1 / 5) 2)[2]? =
      some 0 ∧
    (tripleBarrierBinary [10, 10, 5, 5, 20] 5 (1 / 5) 2)[2]? ≠
      some (collapseQ (signQ ((20 : ℚ) / 5 - 1))) := by
  have h0 : tbSignal [10, 10, 5, 5, 20] 5 (1 / 5) 2 2 = 0 := by
    norm_num [tbSignal, tbProfit, endPrice, List.find?]
  have h1 : collapseQ (signQ ((20 : ℚ) / 5 - 1)) = 1 := by
    norm_num [collapseQ, signQ]
  have h2 : (tripleBarrierBinary [10, 10, 5, 5, 20] 5 (1 / 5) 2)[2]? =
      some 0 := by
    rw [tripleBarrierBinary, rangeMapGet _ _ 2 (by norm_num), h0]
    norm_num [collapseQ, signQ, tbPastReturn]
  exact ⟨h0, h1, h2, by rw [h2, h1]; norm_num⟩

/--
**C2 (amended).** With `twoClass = true`, a bar whose signed label is 0
receives the sign of the trailing (backward) `maxPeriod`-bar return
`close[t]/close[t-maxPeriod] - 1` (0-filled for the first `maxPeriod`
bars, with `copysign` giving +1 at 0), and the result is collapsed to
{0,1} by mapping exactly 1 to 1; bars whose signed label is 1 map to 1
and bars whose signed label is -1 map to 0.
-/
theorem C2_amended_trailing_return_collapse (closes : List ℚ) (ub lb : ℚ)
    (maxPeriod t : ℕ) (ht : t < closes.length) :
    (tbSignal closes ub lb maxPeriod t = 0 →
      (tripleBarrierBinary closes ub lb maxPeriod)[t]? =
        some (if tbPastReturn closes maxPeriod t < 0 then 0 else 1)) ∧
    (tbSignal closes ub lb maxPeriod t = 1 →
      (tripleBarrierBinary closes ub lb maxPeriod)[t]? = some 1) ∧
    (tbSignal closes ub lb maxPeriod t = -1 →
      (tripleBarrierBinary closes ub lb maxPeriod)[t]? = some 0) := by
  rw [tripleBarrierBinary, rangeMapGet _ _ t ht]
  refine ⟨fun h => ?_, fun h => ?_, fun h => ?_⟩ <;> rw [h]
  · by_cases hlt : tbPastReturn closes maxPeriod t < 0 <;>
      norm_num [collapseQ, signQ, hlt]
  · norm_num [collapseQ]
  · norm_num [collapseQ]

/-- Witness for C2 (amended) at closes `[10,10,5,5,20]`, bar 2. -/
theorem C2_amended_trailing_return_collapse_witness :
    2 < 5 ∧
    ((tbSignal [10, 10, 5, 5, 20] 5 (1 / 5) 2 2 = 0 →
      (tripleBarrierBinary [10, 10, 5, 5, 20] 5 (1 / 5) 2)[2]? =
        some (if tbPastReturn [10, 10, 5, 5, 20] 2 2 < 0 then 0 else 1)) ∧
    (tbSignal [10, 10, 5, 5, 20] 5 (1 / 5) 2 2 = 1 →
      (tripleBarrierBinary [10, 10, 5, 5, 20] 5 (1 / 5) 2)[2]? =
        some 1) ∧
    (tbSignal [10, 10, 5, 5, 20] 5 (1 / 5) 2 2 = -1 →
      (tripleBarrierBinary [10, 10, 5, 5, 20] 5 (1 / 5) 2)[2]? =
        some 0)) :=
  ⟨by norm_num,
   C2_amended_trailing_return_collapse [10, 10, 5, 5, 20] 5 (1 / 5) 2 2
     (by norm_num)⟩

/--
**C3 counterexample.** For closes `[100,106,100]`, `lookForward = 1`,
`threshold = 1/20`, the code labels bar 1 with `-1` (its one-bar forward
return `100/106 - 1 ≈ -5.66%` is below `-threshold`), not with the
NaN sentinel the claim asserts: bar 1 does have forward data; only
bar 2 lacks it.
-/
theorem C3_counterexample :
    fixedTimeHorizon [100, 106, 100] (1 / 20) 1 =
      [some 1, some (-1), none] ∧
    fixedTimeHorizon [100, 106, 100] (1 / 20) 1 ≠
      [some 1, none, none] := by
  have h : fixedTimeHorizon [100, 106, 100] (1 / 20) 1 =
      [some 1, some (-1), none] := by
    norm_num [fixedTimeHorizon, forwardReturn, List.range_succ]
  exact ⟨h, by rw [h]; simp⟩

/--
**C3 (amended).** For closes `[100,106,100]` with `lookForward = 1` and
`threshold = 0.05`, `fixed_time_horizon` returns label 0 = +1
(6% > 5%), label 1 = -1 (the forward return `100/106 - 1` is below
-5%), and label 2 = the NaN sentinel (no forward data).
-/
theorem C3_amended_fth_labels :
    (fixedTimeHorizon [100, 106, 100] (1 / 20) 1)[0]? =
      some (some (1 : ℚ)) ∧
    (fixedTimeHorizon [100, 106, 100] (1 / 20) 1)[1]? =
      some (some (-1 : ℚ)) ∧
    (fixedTimeHorizon [100, 106, 100] (1 / 20) 1)[2]? =
      some (none : Option ℚ) := by
  have h : fixedTimeHorizon [100, 106, 100] (1 / 20) 1 =
      [some 1, some (-1), none] := by
    norm_num [fixedTimeHorizon, forwardReturn, List.range_succ]
  rw [h]
  refine ⟨by simp, by simp, by simp⟩

/--
**C4 counterexample.** For closes `[1,2,3]` and `delay = 1`, the code
labels the last bar 0 (the NaN comparison in `np.where` is false and no
NaN remains for `ffill` to fill), whereas forward-filling from the last
determinable bar, as the claim states, would label it 1.
-/
theorem C4_counterexample :
    pdmLabel [1, 2, 3] 1 = [1, 1, 0] ∧
    pdmLabelSpec [1, 2, 3] 1 = [1, 1, 1] ∧
    pdmLabel [1, 2, 3] 1 ≠ pdmLabelSpec [1, 2, 3] 1 := by
  have h1 : pdmLabel [1, 2, 3] 1 = [1, 1, 0] := by
    norm_num [pdmLabel, List.range_succ]
  have h2 : pdmLabelSpec [1, 2, 3] 1 = [1, 1, 1] := by
    norm_num [pdmLabelSpec, List.range_succ]
  exact ⟨h1, h2, by rw [h1, h2]; simp⟩

/--
**C4 (amended).** The Prediction-Delay label at bar `t` is 1 if
`close[t+delay] > close[t]` and 0 otherwise whenever at least `delay`
bars of forward data exist; each of the last `delay` bars receives the
label 0 (the comparison against the shifted-in NaN is false), not a
forward-filled copy of the last determinable label.
-/
theorem C4_amended_pdm_trailing_zero (closes : List ℚ) (delay t : ℕ)
    (ht : t < closes.length) :
    (t + delay < closes.length →
      (pdmLabel closes delay)[t]? =
        some (if closes.getD t 0 < closes.getD (t + delay) 0 then 1 else 0)) ∧
    (closes.length ≤ t + delay →
      (pdmLabel closes delay)[t]? = some 0) := by
  rw [pdmLabel, rangeMapGet _ _ t ht]
  constructor
  · intro h
    by_cases hlt : closes.getD t 0 < closes.getD (t + delay) 0 <;>
      simp [h, hlt]
  · intro h
    simp [show ¬ t + delay < closes.length from not_lt.mpr h]

/-- Witness for C4 (amended) at closes `[1,2,3]`, `delay = 1`, bar 2. -/
theorem C4_amended_pdm_trailing_zero_witness :
    2 < 3 ∧
    ((2 + 1 < 3 →
      (pdmLabel [1, 2, 3] 1)[2]? =
        some (if ([1, 2, 3] : List ℚ).getD 2 0 <
            ([1, 2, 3] : List ℚ).getD (2 + 1) 0 then 1 else 0)) ∧
    (3 ≤ 2 + 1 →
      (pdmLabel [1, 2, 3] 1)[2]? = some 0)) :=
  ⟨by norm_num,
   C4_amended_pdm_trailing_zero [1, 2, 3] 1 2 (by norm_num)⟩

/-! Supporting lemmas about the running maximum and the wealth index. -/

theorem cummaxGo_length (m : ℚ) (l : List ℚ) :
    (cummaxGo m l).length = l.length := by
  induction l generalizing m with
  | nil => rfl
  | cons x xs ih => simp [cummaxGo, ih]

theorem cummaxQ_length (l : List ℚ) : (cummaxQ l).length = l.length := by
  cases l with
  | nil => rfl
  | cons x xs => simp [cummaxQ, cummaxGo_length]

theorem wealthGo_length (c : ℚ) (l : List ℚ) :
    (wealthGo c l).length = l.length := by
  induction l generalizing c with
  | nil => rfl
  | cons r rs ih => simp [wealthGo, ih]

theorem wealthIndex_length (cash : ℚ) (rs : List ℚ) :
    (wealthIndex cash rs).length = rs.length := wealthGo_length cash rs

theorem le_cummaxGo (l : List ℚ) (m : ℚ) (i : ℕ) (h : i < l.length) :
    l.getD i 0 ≤ (cummaxGo m l).getD i 0 := by
  induction l generalizing m i with
  | nil => cases h
  | cons x xs ih =>
    cases i with
    | zero => exact le_max_right m x
    | succ i => exact ih (max m x) i (Nat.lt_of_succ_lt_succ h)

theorem cummaxGo_le (l : List ℚ) (m b : ℚ) (i : ℕ) (h : i < l.length)
    (hm : m ≤ b) (hl : ∀ j, j < l.length → j ≤ i → l.getD j 0 ≤ b) :
    (cummaxGo m l).getD i 0 ≤ b := by
  induction l generalizing m i with
  | nil => cases h
  | cons x xs ih =>
    cases i with
    | zero => exact max_le hm (hl 0 (Nat.succ_le_of_lt h) (le_refl 0))
    | succ i =>
      refine ih (max m x) i (Nat.lt_of_succ_lt_succ h)
        (max_le hm (hl 0 (by omega) (Nat.zero_le _))) ?_
      intro j hj hji
      exact hl (j + 1) (by omega) (by omega)

theorem le_cummaxQ (l : List ℚ) (i : ℕ) (h : i < l.length) :
    l.getD i 0 ≤ (cummaxQ l).getD i 0 := by
  cases l with
  | nil => cases h
  | cons x xs =>
    cases i with
    | zero => exact le_refl x
    | succ i => exact le_cummaxGo xs x i (Nat.lt_of_succ_lt_succ h)

theorem cummaxQ_le (l : List ℚ) (b : ℚ) (i : ℕ) (h : i < l.length)
    (hl : ∀ j, j < l.length → j ≤ i → l.getD j 0 ≤ b) :
    (cummaxQ l).getD i 0 ≤ b := by
  cases l with
  | nil => cases h
  | cons x xs =>
    cases i with
    | zero => exact hl 0 (Nat.succ_le_of_lt h) (le_refl 0)
    | succ i =>
      refine cummaxGo_le xs x b i (Nat.lt_of_succ_lt_succ h)
        (hl 0 (by omega) (Nat.zero_le _)) ?_
      intro j hj hji
      exact hl (j + 1) (by omega) (by omega)

theorem wealthGo_nonneg (l : List ℚ) : ∀ c : ℚ, 0 ≤ c →
    (∀ x ∈ l, -1 ≤ x) → ∀ i, i < l.length → 0 ≤ (wealthGo c l).getD i 0 := by
  induction l with
  | nil => intro c _ _ i h; cases h
  | cons r rs ih =>
    intro c hc hl i h
    have hr : (0 : ℚ) ≤ c * (1 + r) :=
      mul_nonneg hc (by linarith [hl r (List.mem_cons_self r rs)])
    cases i with
    | zero => exact hr
    | succ i =>
      exact ih (c * (1 + r)) hr (fun x hx => hl x (List.mem_cons_of_mem r hx))
        i (Nat.lt_of_succ_lt_succ h)

theorem zipWith_getD (f : ℚ → ℚ → ℚ) (l1 l2 : List ℚ) (i : ℕ)
    (h1 : i < l1.length) (h2 : i < l2.length) :
    (List.zipWith f l1 l2).getD i 0 = f (l1.getD i 0) (l2.getD i 0) := by
  induction l1 generalizing l2 i with
  | nil => cases h1
  | cons x xs ih =>
    cases l2 with
    | nil => cases h2
    | cons y ys =>
      cases i with
      | zero => rfl
      | succ i =>
        exact ih ys i (Nat.lt_of_succ_lt_succ h1) (Nat.lt_of_succ_lt_succ h2)

/--
**C6.** For every return series and starting cash such that the running
peak is nonzero at every index (the only points where the source's
float division is defined), the drawdown computation of
`risk_kit.drawdown` / `simple_drawdown` satisfies the round-trip
identity `wealth = peaks * (1 + drawdown)` at every index, exactly in
rational arithmetic.
-/
theorem C6_drawdown_roundtrip (rs : List ℚ) (cash : ℚ)
    (hp : ∀ i, i < rs.length → (previousPeak cash rs).getD i 0 ≠ 0) :
    ∀ i, i < rs.length →
      (wealthIndex cash rs).getD i 0 =
        (previousPeak cash rs).getD i 0 *
          (1 + (drawdowns cash rs).getD i 0) := by
  intro i hi
  have hw : i < (wealthIndex cash rs).length := by
    rw [wealthIndex_length]; exact hi
  have hpk : i < (previousPeak cash rs).length := by
    rw [previousPeak, cummaxQ_length, wealthIndex_length]; exact hi
  rw [drawdowns, zipWith_getD _ _ _ i hw hpk]
  set w := (wealthIndex cash rs).getD i 0 with hwdef
  set p := (previousPeak cash rs).getD i 0 with hpdef
  have h0 : p ≠ 0 := hp i hi
  field_simp

/-- Witness for C6 at `rs = [2, -1]`, `cash = 1000` (wealth `[3000, 0]`,
peaks `[3000, 3000]`). -/
theorem C6_drawdown_roundtrip_witness :
    (∀ i, i < 2 → (previousPeak 1000 [2, -1]).getD i 0 ≠ 0) ∧
    (∀ i, i < 2 →
      (wealthIndex 1000 [2, -1]).getD i 0 =
        (previousPeak 1000 [2, -1]).getD i 0 *
          (1 + (drawdowns 1000 [2, -1]).getD i 0)) := by
  have hp : ∀ i, i < 2 → (previousPeak 1000 [2, -1]).getD i 0 ≠ 0 := by
    intro i hi
    interval_cases i <;>
      norm_num [previousPeak, wealthIndex, wealthGo, cummaxQ, cummaxGo]
  exact ⟨hp, C6_drawdown_roundtrip [2, -1] 1000 hp⟩

theorem zipWith_getD_rv (f : ℚ → ℚ → RVal) (l1 l2 : List ℚ) (i : ℕ)
    (h1 : i < l1.length) (h2 : i < l2.length) :
    (List.zipWith f l1 l2).getD i RVal.nan =
      f (l1.getD i 0) (l2.getD i 0) := by
  induction l1 generalizing l2 i with
  | nil => cases h1
  | cons x xs ih =>
    cases l2 with
    | nil => cases h2
    | cons y ys =>
      cases i with
      | zero => rfl
      | succ i =>
        exact ih ys i (Nat.lt_of_succ_lt_succ h1) (Nat.lt_of_succ_lt_succ h2)

/--
**C7 counterexample.** The return -1 is allowed by the claim's bound
("at least -100%"). At `rs = [-1, 1/2]` with `cash = 1000` the wealth
index is `[0, 0]`, the running peak is 0 at every bar, and the
program's float drawdown `(0-0)/0` is NaN at every bar — NaN is not a
number in [-1, 0], and at bar 0, a global wealth maximum, the drawdown
is NaN rather than exactly 0.
-/
theorem C7_counterexample :
    wealthIndex 1000 [-1, 1 / 2] = [0, 0] ∧
    previousPeak 1000 [-1, 1 / 2] = [0, 0] ∧
    drawdownsF 1000 [-1, 1 / 2] = [RVal.nan, RVal.nan] ∧
    (∀ q : ℚ, RVal.nan ≠ RVal.num q) := by
  refine ⟨?_, ?_, ?_, fun q h => RVal.noConfusion h⟩
  · norm_num [wealthIndex, wealthGo]
  · norm_num [previousPeak, wealthIndex, wealthGo, cummaxQ, cummaxGo,
      max_def]
  · norm_num [drawdownsF, previousPeak, wealthIndex, wealthGo, cummaxQ,
      cummaxGo, max_def, RVal.divQ]

/--
**C7 (amended).** For every starting cash ≥ 0 and every return series
bounded below by -100%: wealth is non-negative at every bar; at every
bar whose running peak is nonzero, the drawdown is the finite number
`(wealth - peak)/peak`, it lies in [-1, 0], and it equals exactly 0 at
any index where wealth attains its global maximum; at a bar whose
running peak is 0 (reachable only when a return is exactly -1 or the
cash is 0) the program's drawdown is NaN, not a number.
-/
theorem C7_amended_drawdown_invariants (rs : List ℚ) (cash : ℚ)
    (hc : 0 ≤ cash) (hr : ∀ x ∈ rs, -1 ≤ x) :
    (∀ i, i < rs.length → 0 ≤ (wealthIndex cash rs).getD i 0) ∧
    (∀ i, i < rs.length → (previousPeak cash rs).getD i 0 ≠ 0 →
      (drawdownsF cash rs).getD i RVal.nan =
        RVal.num ((drawdowns cash rs).getD i 0) ∧
      -1 ≤ (drawdowns cash rs).getD i 0 ∧
        (drawdowns cash rs).getD i 0 ≤ 0) ∧
    (∀ i, i < rs.length → (previousPeak cash rs).getD i 0 ≠ 0 →
      (∀ j, j < rs.length →
        (wealthIndex cash rs).getD j 0 ≤ (wealthIndex cash rs).getD i 0) →
      (drawdownsF cash rs).getD i RVal.nan = RVal.num 0) ∧
    (∀ i, i < rs.length → (previousPeak cash rs).getD i 0 = 0 →
      (drawdownsF cash rs).getD i RVal.nan = RVal.nan) := by
  have hwlen : (wealthIndex cash rs).length = rs.length :=
    wealthIndex_length cash rs
  have hplen : (previousPeak cash rs).length = rs.length := by
    rw [previousPeak, cummaxQ_length, hwlen]
  have hwn : ∀ i, i < rs.length → 0 ≤ (wealthIndex cash rs).getD i 0 :=
    fun i hi => wealthGo_nonneg rs cash hc hr i hi
  have hwp : ∀ i, i < rs.length →
      (wealthIndex cash rs).getD i 0 ≤ (previousPeak cash rs).getD i 0 :=
    fun i hi => le_cummaxQ (wealthIndex cash rs) i (hwlen ▸ hi)
  have hddF : ∀ i, i < rs.length →
      (drawdownsF cash rs).getD i RVal.nan =
        RVal.divQ
          ((wealthIndex cash rs).getD i 0 -
            (previousPeak cash rs).getD i 0)
          ((previousPeak cash rs).getD i 0) := by
    intro i hi
    exact zipWith_getD_rv _ _ _ i (hwlen ▸ hi) (hplen ▸ hi)
  have hdd : ∀ i, i < rs.length →
      (drawdowns cash rs).getD i 0 =
        ((wealthIndex cash rs).getD i 0 - (previousPeak cash rs).getD i 0) /
          (previousPeak cash rs).getD i 0 := by
    intro i hi
    exact zipWith_getD _ _ _ i (hwlen ▸ hi) (hplen ▸ hi)
  refine ⟨hwn, fun i hi hp0 => ?_, fun i hi hp0 hglob => ?_,
    fun i hi hp0 => ?_⟩
  · have hpos : 0 < (previousPeak cash rs).getD i 0 :=
      lt_of_le_of_ne (le_trans (hwn i hi) (hwp i hi)) (Ne.symm hp0)
    refine ⟨?_, ?_, ?_⟩
    · rw [hddF i hi, hdd i hi, RVal.divQ, if_neg hp0]
    · rw [hdd i hi, le_div_iff₀ hpos]
      have := hwn i hi
      linarith
    · rw [hdd i hi]
      exact div_nonpos_iff.mpr
        (Or.inr ⟨by linarith [hwp i hi], le_of_lt hpos⟩)
  · have hple : (previousPeak cash rs).getD i 0 ≤
        (wealthIndex cash rs).getD i 0 := by
      rw [previousPeak]
      refine cummaxQ_le (wealthIndex cash rs)
        ((wealthIndex cash rs).getD i 0) i (hwlen ▸ hi) ?_
      intro j hj hji
      exact hglob j (by omega)
    have heq : (previousPeak cash rs).getD i 0 =
        (wealthIndex cash rs).getD i 0 :=
      le_antisymm hple (hwp i hi)
    have hw0 : (wealthIndex cash rs).getD i 0 ≠ 0 := heq ▸ hp0
    rw [hddF i hi, heq, sub_self, RVal.divQ, if_neg hw0, zero_div]
  · have hw0 : (wealthIndex cash rs).getD i 0 = 0 := by
      have h1 := hwp i hi
      have h2 := hwn i hi
      rw [hp0] at h1
      linarith
    rw [hddF i hi, hp0, hw0]
    norm_num [RVal.divQ]

/--
**C5 (code bug).** The performance report's 'Max. Drawdown' is NOT
computed from the §4.3 wealth-based drawdown series: line 496 computes
`dd = 1 - r / cummax(r)` directly on the per-bar net RETURN series (the
formula borrowed from backtesting.py, where it is applied to equity).
Failing input: opens `[100,100,110,55,66]`, prediction all ones,
`fee = 0`, `cash = 1000`. The net-return series is
`[0, 0, 1/10, -1/2, 1/5]`; the report's line 499 yields
`max_dd = -600` (a "600% drawdown"), while the wealth-based drawdown
series of `simple_drawdown` is `[0, 0, 0, -1/2, -2/5]`, whose minimum
has magnitude 1/2, i.e. 50% — so the reported magnitude (600) differs
from the wealth-based one (50). (Line 498 even takes the 'Max. Drawdown
Date' from the wealth-based series, contradicting line 499.)
-/
theorem C5_report_drawdown_mismatch :
    strategyNetReturn [100, 100, 110, 55, 66] (List.replicate 5 (some 1)) 0 =
      [0, 0, 1 / 10, -1 / 2, 1 / 5] ∧
    maxDrawdownPct [0, 0, 1 / 10, -1 / 2, 1 / 5] = -600 ∧
    drawdowns 1000 [0, 0, 1 / 10, -1 / 2, 1 / 5] =
      [0, 0, 0, -1 / 2, -2 / 5] ∧
    (∀ x ∈ ([0, 0, 0, -1 / 2, -2 / 5] : List ℚ), -(1 / 2) ≤ x) ∧
    -maxDrawdownPct [0, 0, 1 / 10, -1 / 2, 1 / 5] ≠ (1 / 2 : ℚ) * 100 := by
  refine ⟨?_, ?_, ?_, ?_, ?_⟩
  · norm_num [strategyNetReturn, sellDates, sellIdx, statAt, statusList,
      binarySignal, coerceSignal, shiftFillZero, List.range_succ]
  · norm_num [maxDrawdownPct, ddReturnSeries, cummaxQ, cummaxGo, RVal.sub,
      RVal.divQ, RVal.maxSkipNA, RVal.rmax, RVal.nanToNum, max_def]
  · norm_num [drawdowns, previousPeak, wealthIndex, wealthGo, cummaxQ,
      cummaxGo, max_def]
  · intro x hx
    simp only [List.mem_cons, List.not_mem_nil, or_false] at hx
    rcases hx with h | h | h | h | h <;> rw [h] <;> norm_num
  · rw [show maxDrawdownPct [0, 0, 1 / 10, -1 / 2, 1 / 5] = -600 from by
      norm_num [maxDrawdownPct, ddReturnSeries, cummaxQ, cummaxGo, RVal.sub,
        RVal.divQ, RVal.maxSkipNA, RVal.rmax, RVal.nanToNum, max_def]]
    norm_num

/-! Supporting lemmas for the all-zero-signal boundary case. -/

theorem replicate_getD_zero (n t : ℕ) :
    (List.replicate n (0 : ℚ)).getD t 0 = 0 := by
  induction n generalizing t with
  | zero => cases t <;> rfl
  | succ n ih =>
    cases t with
    | zero => rfl
    | succ t => exact ih t

theorem statusList_all_zero (n : ℕ) :
    statusList (List.replicate n (some (0 : ℚ))) = List.replicate n 0 := by
  rw [statusList, binarySignal, List.map_replicate,
    show coerceSignal (some 0) = 0 from by norm_num [coerceSignal],
    shiftFillZero]
  cases n with
  | zero => rfl
  | succ n => simp [List.dropLast_replicate, List.replicate_succ]

theorem statAt_all_zero (n t : ℕ) :
    statAt (List.replicate n (some (0 : ℚ))) t = 0 := by
  rw [statAt, statusList_all_zero]
  exact replicate_getD_zero n t

theorem sellIdx_all_zero (opens : List ℚ) (n : ℕ) :
    sellIdx opens (List.replicate n (some (0 : ℚ))) = [] := by
  rw [sellIdx]
  apply List.filter_eq_nil_iff.mpr
  intro t ht
  simp [statAt_all_zero]

theorem sellDates_all_zero (opens : List ℚ) (n : ℕ) :
    sellDates opens (List.replicate n (some (0 : ℚ))) = [] := by
  rw [sellDates, sellIdx_all_zero]
  rfl

theorem sellPrice_all_zero (opens : List ℚ) (n : ℕ) :
    sellPrice opens (List.replicate n (some (0 : ℚ))) = [] := by
  rw [sellPrice, sellIdx_all_zero]
  rfl

theorem netTradeReturn_all_zero (opens : List ℚ) (n : ℕ) (fee : ℚ) :
    netTradeReturn opens (List.replicate n (some (0 : ℚ))) fee = [] := by
  rw [netTradeReturn, tradeReturn, sellPrice_all_zero]
  rfl

theorem snr_all_zero (opens : List ℚ) (fee : ℚ) :
    strategyNetReturn opens (List.replicate opens.length (some (0 : ℚ)))
      fee = List.replicate opens.length 0 := by
  rw [strategyNetReturn]
  apply List.eq_replicate_iff.mpr
  refine ⟨by simp, ?_⟩
  intro b hb
  simp only [List.mem_map] at hb
  obtain ⟨t, ht, rfl⟩ := hb
  rw [sellDates_all_zero]
  by_cases h0 : t = 0 <;> simp [h0, statAt_all_zero]

theorem wealthGo_zeros (c : ℚ) (n : ℕ) :
    wealthGo c (List.replicate n (0 : ℚ)) = List.replicate n c := by
  induction n generalizing c with
  | zero => rfl
  | succ n ih =>
    rw [List.replicate_succ, wealthGo,
      show c * (1 + 0) = c from by ring, ih, List.replicate_succ]

theorem cummaxGo_zeros (n : ℕ) :
    cummaxGo 0 (List.replicate n (0 : ℚ)) = List.replicate n 0 := by
  induction n with
  | zero => rfl
  | succ n ih =>
    rw [List.replicate_succ, cummaxGo, max_self, ih]

theorem cummaxQ_zeros (n : ℕ) :
    cummaxQ (List.replicate n (0 : ℚ)) = List.replicate n 0 := by
  cases n with
  | zero => rfl
  | succ n =>
    rw [List.replicate_succ, cummaxQ, cummaxGo_zeros]

theorem ddReturnSeries_zeros (n : ℕ) :
    ddReturnSeries (List.replicate n (0 : ℚ)) =
      List.replicate n RVal.nan := by
  rw [ddReturnSeries, cummaxQ_zeros]
  induction n with
  | zero => rfl
  | succ n ih =>
    rw [List.replicate_succ, List.zipWith_cons_cons, ih, List.replicate_succ]
    norm_num [RVal.divQ, RVal.sub]

theorem RVal.mul_nan_left (x : RVal) : RVal.mul RVal.nan x = RVal.nan := by
  cases x <;> rfl

theorem RVal.div_nan_right (x : RVal) : RVal.div x RVal.nan = RVal.nan := by
  cases x <;> rfl

theorem maxSkipNA_nans (n : ℕ) :
    RVal.maxSkipNA (List.replicate n RVal.nan) = RVal.nan := by
  rw [RVal.maxSkipNA]
  induction n with
  | zero => rfl
  | succ n ih =>
    rw [List.replicate_succ, List.foldl_cons]
    exact ih

theorem maxDrawdownPct_zeros (n : ℕ) :
    maxDrawdownPct (List.replicate n (0 : ℚ)) = 0 := by
  rw [maxDrawdownPct, ddReturnSeries_zeros, maxSkipNA_nans]
  norm_num [RVal.nanToNum]

theorem annualizedReturn_all_zero (root : ℚ → ℕ → ℚ)
    (hroot : ∀ m, root 1 m = 1) (opens : List ℚ) (fee : ℚ) :
    annualizedReturn root opens
      (List.replicate opens.length (some (0 : ℚ))) fee = 0 := by
  rw [annualizedReturn, snr_all_zero, List.map_replicate,
    show (0 : ℚ) + 1 = 1 from by norm_num, List.prod_replicate, one_pow,
    hroot]
  norm_num

/--
**C8.** For every price series, running the trade simulation with an
all-zero prediction signal produces zero completed trades, a strategy
net equity equal to the initial cash at every bar, and Sharpe and
Calmar ratios that are NaN (the volatility is the numpy std of an
empty trade array, which is NaN; the Calmar divisor `(-max_dd/100) or
np.nan` is NaN because no drawdown is recorded) — every statistic is a
total value, nothing raises, and the undefined ratios are NaN rather
than 0. `std` models the numpy standard deviation (NaN on an empty
array) and `root` the float n-th root (whose value turns out to be
irrelevant to the NaN results).
-/
theorem C8_all_zero_signal (opens : List ℚ) (fee cash : ℚ)
    (std : List ℚ → RVal) (hstd : std [] = RVal.nan)
    (root : ℚ → ℕ → ℚ) (sqrt252 : RVal) :
    tradeCount opens (List.replicate opens.length (some 0)) = 0 ∧
    strategyNetEquity opens (List.replicate opens.length (some 0)) fee
      cash = List.replicate opens.length cash ∧
    annualizedSharpe std root sqrt252 opens
      (List.replicate opens.length (some 0)) fee = RVal.nan ∧
    calmarRatio root opens (List.replicate opens.length (some 0)) fee =
      RVal.nan := by
  refine ⟨?_, ?_, ?_, ?_⟩
  · rw [tradeCount, sellDates_all_zero]
    rfl
  · rw [strategyNetEquity, snr_all_zero, wealthIndex]
    exact wealthGo_zeros cash _
  · rw [annualizedSharpe, annualizedVolatility, netTradeReturn_all_zero,
      hstd, RVal.mul_nan_left, RVal.div_nan_right]
  · rw [calmarRatio, snr_all_zero, maxDrawdownPct_zeros]
    norm_num [RVal.div]

/-- Witness for C8 at opens `[100, 110]`, `fee = 1/500`, `cash = 1000`,
with `std` the function that is NaN exactly on the empty list and
`root` constantly 1. -/
theorem C8_all_zero_signal_witness :
    ((fun l : List ℚ => if l.isEmpty then RVal.nan else RVal.num 0) [] =
      RVal.nan) ∧
    (tradeCount [100, 110] (List.replicate 2 (some 0)) = 0 ∧
    strategyNetEquity [100, 110] (List.replicate 2 (some 0)) (1 / 500)
      1000 = List.replicate 2 1000 ∧
    annualizedSharpe (fun l : List ℚ => if l.isEmpty then RVal.nan
        else RVal.num 0) (fun (_ : ℚ) (_ : ℕ) => (1 : ℚ)) (RVal.num 16)
      [100, 110] (List.replicate 2 (some 0)) (1 / 500) = RVal.nan ∧
    calmarRatio (fun (_ : ℚ) (_ : ℕ) => (1 : ℚ)) [100, 110]
      (List.replicate 2 (some 0)) (1 / 500) = RVal.nan) :=
  ⟨rfl,
   C8_all_zero_signal [100, 110] (1 / 500) 1000
     (fun l : List ℚ => if l.isEmpty then RVal.nan else RVal.num 0) rfl
     (fun (_ : ℚ) (_ : ℕ) => (1 : ℚ)) (RVal.num 16)⟩

/-- Witness for C7 (amended) at `rs = [2, -1]`, `cash = 1000` (wealth
`[3000, 0]`, running peak 3000 at both bars, nonzero). -/
theorem C7_amended_drawdown_invariants_witness :
    ((0 : ℚ) ≤ 1000 ∧ ∀ x ∈ ([2, -1] : List ℚ), -1 ≤ x) ∧
    ((∀ i, i < ([2, -1] : List ℚ).length →
      0 ≤ (wealthIndex 1000 [2, -1]).getD i 0) ∧
    (∀ i, i < ([2, -1] : List ℚ).length →
      (previousPeak 1000 [2, -1]).getD i 0 ≠ 0 →
      (drawdownsF 1000 [2, -1]).getD i RVal.nan =
        RVal.num ((drawdowns 1000 [2, -1]).getD i 0) ∧
      -1 ≤ (drawdowns 1000 [2, -1]).getD i 0 ∧
        (drawdowns 1000 [2, -1]).getD i 0 ≤ 0) ∧
    (∀ i, i < ([2, -1] : List ℚ).length →
      (previousPeak 1000 [2, -1]).getD i 0 ≠ 0 →
      (∀ j, j < ([2, -1] : List ℚ).length →
        (wealthIndex 1000 [2, -1]).getD j 0 ≤
          (wealthIndex 1000 [2, -1]).getD i 0) →
      (drawdownsF 1000 [2, -1]).getD i RVal.nan = RVal.num 0) ∧
    (∀ i, i < ([2, -1] : List ℚ).length →
      (previousPeak 1000 [2, -1]).getD i 0 = 0 →
      (drawdownsF 1000 [2, -1]).getD i RVal.nan = RVal.nan)) := by
  have hr : ∀ x ∈ ([2, -1] : List ℚ), -1 ≤ x := by
    intro x hx
    rcases List.mem_cons.mp hx with h | hx
    · rw [h]; norm_num
    rcases List.mem_cons.mp hx with h | hx
    · rw [h]
    · cases hx
  exact ⟨⟨by norm_num, hr⟩,
    C7_amended_drawdown_invariants [2, -1] 1000 (by norm_num) hr⟩

theorem setCol_Open (f : Frame) (name : String)
    (col : List (Option ℚ)) : (setCol f name col).Open = f.Open := by
  rw [setCol]
  split <;> rfl

theorem setCol_High (f : Frame) (name : String)
    (col : List (Option ℚ)) : (setCol f name col).High = f.High := by
  rw [setCol]
  split <;> rfl

theorem setCol_Low (f : Frame) (name : String)
    (col : List (Option ℚ)) : (setCol f name col).Low = f.Low := by
  rw [setCol]
  split <;> rfl

theorem setCol_Close (f : Frame) (name : String)
    (col : List (Option ℚ)) : (setCol f name col).Close = f.Close := by
  rw [setCol]
  split <;> rfl

/--
**C9 counterexample.** On a 2-bar frame with no derived columns,
`ml_backtest` (lines 402-406) and the PDM branch of `generate_label`
(line 367) leave the caller's table changed: derived columns have been
added in place, so the table is not unchanged as the claim states.
-/
theorem C9_counterexample :
    mlBacktestEffect ⟨[100, 102], [100, 102], [100, 102], [100, 102], []⟩
        [some 1, some 0] ≠
      ⟨[100, 102], [100, 102], [100, 102], [100, 102], []⟩ ∧
    pdmEffect ⟨[100, 102], [100, 102], [100, 102], [100, 102], []⟩ 1 ≠
      ⟨[100, 102], [100, 102], [100, 102], [100, 102], []⟩ := by
  constructor <;> decide

/--
**C9 (amended).** No core operation modifies the VALUES of the input's
OHLC columns — the mutating calls only add derived columns: for every
frame and prediction, the Open/High/Low/Close columns after
`ml_backtest`'s in-place assignments, and after the PDM label
assignment, are the input's columns unchanged (the other label
strategies build their outputs in fresh series and do not touch the
frame at all).
-/
theorem C9_amended_ohlc_values_preserved (f : Frame)
    (pred : List (Option ℚ)) (delay : ℕ) :
    ((mlBacktestEffect f pred).Open = f.Open ∧
     (mlBacktestEffect f pred).High = f.High ∧
     (mlBacktestEffect f pred).Low = f.Low ∧
     (mlBacktestEffect f pred).Close = f.Close) ∧
    ((pdmEffect f delay).Open = f.Open ∧
     (pdmEffect f delay).High = f.High ∧
     (pdmEffect f delay).Low = f.Low ∧
     (pdmEffect f delay).Close = f.Close) := by
  refine ⟨⟨?_, ?_, ?_, ?_⟩, ⟨?_, ?_, ?_, ?_⟩⟩ <;>
    simp [mlBacktestEffect, pdmEffect, setCol_Open, setCol_High,
      setCol_Low, setCol_Close]

/--
**C10.** Before simulating, `ml_backtest` coerces the prediction array
elementwise by `1.0 if x == 1.0 else 0.0` — so 1.0 maps to 1.0 and 0,
-1, 2 and NaN all map to 0.0 (flat) — and consequently any two
prediction arrays of the same length that agree on which elements equal
1.0 produce the identical position schedule, trade lists, trade count,
trade returns and net equity curve.
-/
theorem C10_prediction_coercion (opens : List ℚ)
    (p1 p2 : List (Option ℚ)) (fee cash : ℚ)
    (hlen : p1.length = p2.length)
    (hagree : ∀ i, i < p1.length →
      (p1.getD i none = some 1 ↔ p2.getD i none = some 1)) :
    coerceSignal (some 1) = 1 ∧ coerceSignal (some 0) = 0 ∧
    coerceSignal (some (-1)) = 0 ∧ coerceSignal (some 2) = 0 ∧
    coerceSignal none = 0 ∧
    mlSimulate opens p1 fee cash = mlSimulate opens p2 fee cash := by
  have hbin : binarySignal p1 = binarySignal p2 := by
    rw [binarySignal, binarySignal]
    apply List.ext_getElem (by simp [hlen])
    intro i h1 h2
    rw [List.getElem_map, List.getElem_map]
    have hi : i < p1.length := by simpa using h1
    have hi2 : i < p2.length := by simpa using h2
    have h := hagree i hi
    rw [List.getD_eq_getElem p1 none hi, List.getD_eq_getElem p2 none hi2]
      at h
    rw [coerceSignal, coerceSignal]
    by_cases hc : p1[i] = some 1
    · rw [if_pos hc, if_pos (h.mp hc)]
    · rw [if_neg hc, if_neg (fun hc2 => hc (h.mpr hc2))]
  have hstatus : statusList p1 = statusList p2 := by
    rw [statusList, statusList, hbin]
  have hstat : ∀ t, statAt p1 t = statAt p2 t := fun t => by
    rw [statAt, statAt, hstatus]
  have hbuyIdx : buyIdx opens p1 = buyIdx opens p2 := by
    rw [buyIdx, buyIdx]
    simp only [hstat]
  have hsellIdx : sellIdx opens p1 = sellIdx opens p2 := by
    rw [sellIdx, sellIdx]
    simp only [hstat]
  have hsellDates : sellDates opens p1 = sellDates opens p2 := by
    rw [sellDates, sellDates, hsellIdx]
  have hbuyCost : buyCost opens p1 = buyCost opens p2 := by
    rw [buyCost, buyCost, hbuyIdx]
  have hsellPrice : sellPrice opens p1 = sellPrice opens p2 := by
    rw [sellPrice, sellPrice, hsellIdx]
  have hsnr : strategyNetReturn opens p1 fee =
      strategyNetReturn opens p2 fee := by
    rw [strategyNetReturn, strategyNetReturn, hsellDates]
    simp only [hstat]
  refine ⟨by decide, by decide, by decide, by decide, by decide, ?_⟩
  rw [mlSimulate, mlSimulate, hstatus, hbuyIdx, hsellIdx, tradeCount,
    tradeCount, hsellDates, tradeReturn, tradeReturn, hsellPrice,
    buyCostMatched, buyCostMatched, hsellPrice, hbuyCost,
    strategyNetEquity, strategyNetEquity, hsnr]

/-- Witness for C10: predictions `[1, 2, 0]` and `[1, NaN, -1]` agree
on which entries equal 1 and simulate identically on opens
`[100, 102, 101]`. -/
theorem C10_prediction_coercion_witness :
    ([some 1, some 2, some 0] : List (Option ℚ)).length =
      ([some 1, none, some (-1)] : List (Option ℚ)).length ∧
    (∀ i, i < ([some 1, some 2, some 0] : List (Option ℚ)).length →
      (([some 1, some 2, some 0] : List (Option ℚ)).getD i none = some 1 ↔
        ([some 1, none, some (-1)] : List (Option ℚ)).getD i none =
          some 1)) ∧
    (coerceSignal (some 1) = 1 ∧ coerceSignal (some 0) = 0 ∧
    coerceSignal (some (-1)) = 0 ∧ coerceSignal (some 2) = 0 ∧
    coerceSignal none = 0 ∧
    mlSimulate [100, 102, 101] [some 1, some 2, some 0] (1 / 100) 1000 =
      mlSimulate [100, 102, 101] [some 1, none, some (-1)] (1 / 100)
        1000) :=
  ⟨rfl, by decide,
   C10_prediction_coercion [100, 102, 101] [some 1, some 2, some 0]
     [some 1, none, some (-1)] (1 / 100) 1000 rfl (by decide)⟩

end AutoTrading
